import Mathlib

/-!
Verification of the ClassWaves student client core, shallowly embedded from the
TypeScript sources:
the Session State Store (zustand store in the student-store module),
the Audio Capture Engine (useAudioRecorder hook),
the Auto-Capture Controller (useSessionAudioControl hook), and
the Connection Manager (GroupKioskWebSocketService in src/lib/websocket.ts).

Machine state is modelled as explicit records, stateful methods as pure state
transformers, asynchronous environment outcomes (permission grants, device
acquisition results, countdown timers) as explicit parameters or events, and
outbound socket emissions as lists of commands.
-/

namespace ClassWaves

/-! ## Session State Store (student-store)

Embeds the zustand store: the `StudentState` record mirrors the store's state
fields, each action mirrors the corresponding `set` call (zustand `set` merges
the given fields into the state, leaving all other fields unchanged, which a
Lean record update expresses exactly). -/

structure Student where
  id : String
  name : String
  sessionId : String
deriving DecidableEq, Repr

structure Session where
  id : String
  title : String
  status : String
deriving DecidableEq, Repr

structure Group where
  id : String
  name : String
  members : List String
  isLeader : Option Bool
  isReady : Option Bool
deriving DecidableEq, Repr

structure StudentState where
  isAuthenticated : Bool
  token : Option String
  student : Option Student
  session : Option Session
  group : Option Group
  isRecording : Bool
  isMuted : Bool
  audioLevel : Nat
  isConnected : Bool
deriving DecidableEq, Repr

/-- The store's initial state (lines 58-67 of the store module). -/
def initialStudentState : StudentState :=
  { isAuthenticated := false
    token := none
    student := none
    session := none
    group := none
    isRecording := false
    isMuted := false
    audioLevel := 0
    isConnected := false }

def setAuth (token : String) (student : Student) (s : StudentState) : StudentState :=
  { s with isAuthenticated := true, token := some token, student := some student }

def setSession (session : Session) (s : StudentState) : StudentState :=
  { s with session := some session }

def setGroup (group : Option Group) (s : StudentState) : StudentState :=
  { s with group := group }

/-- `setGroupReadiness`: `set(state => ({ group: state.group ? { ...state.group, isReady } : null }))`. -/
def setGroupReadiness (isReady : Bool) (s : StudentState) : StudentState :=
  { s with group := s.group.map (fun g => { g with isReady := some isReady }) }

def setRecording (isRecording : Bool) (s : StudentState) : StudentState :=
  { s with isRecording := isRecording }

def setMuted (isMuted : Bool) (s : StudentState) : StudentState :=
  { s with isMuted := isMuted }

def setAudioLevel (audioLevel : Nat) (s : StudentState) : StudentState :=
  { s with audioLevel := audioLevel }

def setConnected (isConnected : Bool) (s : StudentState) : StudentState :=
  { s with isConnected := isConnected }

/-- `logout`: a single `set` whose object lists every state field with its
initial value (lines 90-101 of the store module). -/
def logout (s : StudentState) : StudentState :=
  { s with
    isAuthenticated := false
    token := none
    student := none
    session := none
    group := none
    isRecording := false
    isMuted := false
    audioLevel := 0
    isConnected := false }

/-- C6: for every store state and boolean, `setGroupReadiness` updates only
`group.isReady` and changes no other field; after `setGroup (some g)` then
`setGroupReadiness true` the store holds `g`'s id with `isReady = some true`,
and a subsequent `setGroupReadiness false` leaves `g`'s id and name unchanged. -/
theorem setGroupReadiness_updates_only_isReady (s : StudentState) (b : Bool) (g : Group) :
    (setGroupReadiness b s).isAuthenticated = s.isAuthenticated ∧
    (setGroupReadiness b s).token = s.token ∧
    (setGroupReadiness b s).student = s.student ∧
    (setGroupReadiness b s).session = s.session ∧
    (setGroupReadiness b s).isRecording = s.isRecording ∧
    (setGroupReadiness b s).isMuted = s.isMuted ∧
    (setGroupReadiness b s).audioLevel = s.audioLevel ∧
    (setGroupReadiness b s).isConnected = s.isConnected ∧
    (setGroupReadiness b s).group = s.group.map (fun g0 => { g0 with isReady := some b }) ∧
    (setGroupReadiness true (setGroup (some g) s)).group = some { g with isReady := some true } ∧
    (setGroupReadiness false (setGroupReadiness true (setGroup (some g) s))).group
      = some { g with isReady := some false } :=
  ⟨rfl, rfl, rfl, rfl, rfl, rfl, rfl, rfl, rfl, rfl, rfl⟩

/-- C7: from every store state, `logout` returns the store to its documented
initial state in one action; in particular `setAuth` followed by `logout`
restores the initial state (so `isAuthenticated = false` and `token = none`). -/
theorem logout_resets_every_field (s : StudentState) (t : String) (st : Student) :
    logout s = initialStudentState ∧
    logout (setAuth t st s) = initialStudentState :=
  ⟨rfl, rfl⟩

/-- C10: when the store's group is `none`, `setGroupReadiness` leaves the whole
state unchanged: it never fabricates a group object from a readiness update. -/
theorem setGroupReadiness_no_group_noop (s : StudentState) (b : Bool)
    (h : s.group = none) : setGroupReadiness b s = s := by
  obtain ⟨a, t, st, se, gr, r, m, l, c⟩ := s
  simp only at h
  subst h
  rfl

/-- Witness for C10: readiness updates on the initial (groupless) state are the
identity, for both booleans. -/
theorem setGroupReadiness_no_group_noop_ex :
    setGroupReadiness true initialStudentState = initialStudentState ∧
    setGroupReadiness false initialStudentState = initialStudentState :=
  ⟨setGroupReadiness_no_group_noop initialStudentState true rfl,
   setGroupReadiness_no_group_noop initialStudentState false rfl⟩

/-! ## Audio Capture Engine (useAudioRecorder)

The hook's React state and refs become the fields of `EngineState`.  The
browser environment is made explicit: `deviceCalls` counts every
`getUserMedia` invocation, `openStreams` lists the ids of device streams whose
tracks have been acquired and not yet stopped, and the success of an
asynchronous acquisition is a boolean parameter of the operation. -/

inductive RecState where
  | recording
  | paused
  | inactive
deriving DecidableEq, Repr

/-- A `MediaRecorder` instance together with the id of the device stream it
was constructed over. -/
structure Recorder where
  recState : RecState
  streamId : Nat
deriving DecidableEq, Repr

structure EngineState where
  isRecording : Bool
  isPaused : Bool
  error : Option String
  audioLevel : Nat
  hasPermission : Bool
  duration : Nat
  audioBlob : Option (List Nat)
  audioUrl : Option (List Nat)
  mediaRecorder : Option Recorder
  audioContextOpen : Bool
  animFrameActive : Bool
  durationIntervalActive : Bool
  chunks : List Nat
  deviceCalls : Nat
  openStreams : List Nat
deriving DecidableEq, Repr

def initEngine : EngineState :=
  { isRecording := false
    isPaused := false
    error := none
    audioLevel := 0
    hasPermission := false
    duration := 0
    audioBlob := none
    audioUrl := none
    mediaRecorder := none
    audioContextOpen := false
    animFrameActive := false
    durationIntervalActive := false
    chunks := []
    deviceCalls := 0
    openStreams := [] }

/-- `requestPermission`: probes `getUserMedia({audio: true})` and stops the
probe stream's tracks immediately; `ok` is whether the browser granted it. -/
def requestPermission (ok : Bool) (s : EngineState) : EngineState :=
  if ok then
    { s with error := none, deviceCalls := s.deviceCalls + 1, hasPermission := true }
  else
    { s with error := some "Microphone permission denied",
             deviceCalls := s.deviceCalls + 1, hasPermission := false }

/-- The field resets `startRecording` performs first, before the permission
check (lines 41-46 of the hook). -/
def startRecordingReset (s : EngineState) : EngineState :=
  { s with error := none, audioBlob := none, audioUrl := none,
           duration := 0, isPaused := false, chunks := [] }

/-- `startRecording`: resets span state, refuses without permission, otherwise
acquires a device stream (`gumOk` is whether `getUserMedia` resolves), builds a
recorder over it, opens the audio context, and starts the amplitude loop and
duration timer.  Note the hook has no already-recording guard. -/
def startRecording (gumOk : Bool) (s0 : EngineState) : EngineState :=
  let s := startRecordingReset s0
  if s.hasPermission = false then
    { s with error := some "Microphone permission not granted" }
  else if gumOk then
    let sid := s.deviceCalls
    { s with deviceCalls := s.deviceCalls + 1,
             openStreams := sid :: s.openStreams,
             audioContextOpen := true,
             animFrameActive := true,
             mediaRecorder := some { recState := RecState.recording, streamId := sid },
             isRecording := true,
             durationIntervalActive := true }
  else
    { s with deviceCalls := s.deviceCalls + 1,
             error := some "Could not access microphone. Please check permissions." }

/-- `stopRecording`: if a non-inactive recorder exists, stop it (its `onstop`
assembles the chunk buffer into a blob and a preview url when non-empty) and
stop every track of its stream; then close the audio context, cancel the
amplitude loop, clear the duration timer, and reset the recording flags. -/
def stopRecording (s : EngineState) : EngineState :=
  let s1 :=
    match s.mediaRecorder with
    | some r =>
        if r.recState ≠ RecState.inactive then
          let s2 := { s with mediaRecorder := some { r with recState := RecState.inactive },
                             openStreams := s.openStreams.erase r.streamId }
          if s2.chunks.isEmpty then s2
          else { s2 with audioBlob := some s2.chunks, audioUrl := some s2.chunks }
        else s
    | none => s
  { s1 with audioContextOpen := false, animFrameActive := false,
            durationIntervalActive := false,
            isRecording := false, isPaused := false, audioLevel := 0 }

def pauseRecording (s : EngineState) : EngineState :=
  match s.mediaRecorder with
  | some r =>
      if r.recState = RecState.recording then
        { s with mediaRecorder := some { r with recState := RecState.paused },
                 isPaused := true }
      else s
  | none => s

def resumeRecording (s : EngineState) : EngineState :=
  match s.mediaRecorder with
  | some r =>
      if r.recState = RecState.paused then
        { s with mediaRecorder := some { r with recState := RecState.recording },
                 isPaused := false }
      else s
  | none => s

def toggleRecording (gumOk : Bool) (s : EngineState) : EngineState :=
  if s.isRecording then stopRecording s else startRecording gumOk s

def clearRecording (s : EngineState) : EngineState :=
  { s with chunks := [], audioBlob := none, audioUrl := none, duration := 0 }

/-- The recorder's `ondataavailable` firing with a chunk of the given size;
chunks are appended only when positive-sized. -/
def dataTick (size : Nat) (s : EngineState) : EngineState :=
  match s.mediaRecorder with
  | some r =>
      if r.recState = RecState.recording then
        if 0 < size then { s with chunks := s.chunks ++ [size] } else s
      else s
  | none => s

/-- One step of the animation-frame amplitude loop: sets the level, clamped to
0-100 as in `Math.min(100, ...)`. -/
def monitorTick (lvl : Nat) (s : EngineState) : EngineState :=
  if s.animFrameActive then { s with audioLevel := min 100 lvl } else s

/-- One firing of the one-second duration interval. -/
def durationTick (s : EngineState) : EngineState :=
  if s.durationIntervalActive then { s with duration := s.duration + 1 } else s

/-- C4: whenever `hasPermission` is false, `startRecording` fails with the
permission error and performs zero device acquisitions: the `getUserMedia`
call count, the set of open streams, and the recording flag are untouched. -/
theorem startRecording_without_permission_fails (s : EngineState) (gumOk : Bool)
    (h : s.hasPermission = false) :
    (startRecording gumOk s).error = some "Microphone permission not granted" ∧
    (startRecording gumOk s).deviceCalls = s.deviceCalls ∧
    (startRecording gumOk s).openStreams = s.openStreams ∧
    (startRecording gumOk s).mediaRecorder = s.mediaRecorder ∧
    (startRecording gumOk s).isRecording = s.isRecording := by
  simp [startRecording, startRecordingReset, h]

/-- Witness for C4: on the fresh engine state, which has no permission,
`startRecording` records the permission error and makes no device call. -/
theorem startRecording_without_permission_fails_ex :
    (startRecording true initEngine).error = some "Microphone permission not granted" ∧
    (startRecording true initEngine).deviceCalls = initEngine.deviceCalls ∧
    (startRecording true initEngine).openStreams = initEngine.openStreams ∧
    (startRecording true initEngine).mediaRecorder = initEngine.mediaRecorder ∧
    (startRecording true initEngine).isRecording = initEngine.isRecording :=
  startRecording_without_permission_fails initEngine true rfl

/-- C9: every `startRecording` call factors through the initial span reset,
which clears the assembled blob, preview url, duration, pause flag, error and
chunk buffer; hence a permission-failed start leaves the engine with no blob
and with `isRecording` exactly as it was (false when starting from idle). -/
theorem startRecording_resets_span_state_first (s : EngineState) (gumOk : Bool) :
    startRecording gumOk s = startRecording gumOk (startRecordingReset s) ∧
    startRecordingReset s
      = { s with error := none, audioBlob := none, audioUrl := none,
                 duration := 0, isPaused := false, chunks := [] } ∧
    (startRecording gumOk s).audioBlob = none ∧
    (startRecording gumOk s).audioUrl = none ∧
    (startRecording gumOk s).duration = 0 ∧
    (startRecording gumOk s).isPaused = false ∧
    (startRecording gumOk s).chunks = [] ∧
    (s.hasPermission = false →
      (startRecording gumOk s).error = some "Microphone permission not granted" ∧
      (startRecording gumOk s).isRecording = s.isRecording) := by
  have hb : (startRecording gumOk s).audioBlob = none ∧
      (startRecording gumOk s).audioUrl = none ∧
      (startRecording gumOk s).duration = 0 ∧
      (startRecording gumOk s).isPaused = false ∧
      (startRecording gumOk s).chunks = [] := by
    simp only [startRecording, startRecordingReset]
    split
    · exact ⟨rfl, rfl, rfl, rfl, rfl⟩
    · split
      · exact ⟨rfl, rfl, rfl, rfl, rfl⟩
      · exact ⟨rfl, rfl, rfl, rfl, rfl⟩
  refine ⟨?_, rfl, hb.1, hb.2.1, hb.2.2.1, hb.2.2.2.1, hb.2.2.2.2, ?_⟩
  · simp [startRecording, startRecordingReset]
  · intro h
    constructor
    · simp [startRecording, startRecordingReset, h]
    · simp [startRecording, startRecordingReset, h]

/-- Witness for C9: starting from a state holding an assembled previous span
(blob present, nonzero duration) with permission absent, the failed start
discards the blob and url, zeroes the duration, empties the chunk buffer, and
leaves `isRecording` false. -/
theorem startRecording_resets_span_state_first_ex :
    (startRecording true
        { initEngine with audioBlob := some [5], audioUrl := some [5],
                          duration := 7, chunks := [5], isRecording := false }).audioBlob
      = none ∧
    (startRecording true
        { initEngine with audioBlob := some [5], audioUrl := some [5],
                          duration := 7, chunks := [5], isRecording := false }).isRecording
      = false := by
  have h := startRecording_resets_span_state_first
    { initEngine with audioBlob := some [5], audioUrl := some [5],
                      duration := 7, chunks := [5], isRecording := false } true
  exact ⟨h.2.2.1, (h.2.2.2.2.2.2.2 rfl).2⟩

/-- C3 (code evaluation): the engine does NOT make `startRecording` a no-op
while recording.  After granting permission and starting once (device call 1,
open stream 1, recorder over stream 1), a second `startRecording` performs a
further device acquisition: afterwards two device streams are open at once
(ids 2 and 1 — the first stream's tracks were never stopped), the recorder has
been replaced by one over the new stream, and the `getUserMedia` call count has
risen to 3 (probe + two acquisitions).  This contradicts the documented
invariant (and the test named "prevents multiple simultaneous recordings"). -/
theorem startRecording_while_recording_acquires_second_stream :
    (startRecording true (requestPermission true initEngine)).isRecording = true ∧
    (startRecording true (requestPermission true initEngine)).openStreams = [1] ∧
    (startRecording true (requestPermission true initEngine)).mediaRecorder
      = some { recState := RecState.recording, streamId := 1 } ∧
    (startRecording true (startRecording true (requestPermission true initEngine))).openStreams
      = [2, 1] ∧
    (startRecording true (startRecording true (requestPermission true initEngine))).mediaRecorder
      = some { recState := RecState.recording, streamId := 2 } ∧
    (startRecording true (startRecording true (requestPermission true initEngine))).deviceCalls
      = 3 := by
  refine ⟨rfl, rfl, rfl, rfl, rfl, rfl⟩

/-! ### Reachable engine states

The engine's public surface (plus the recorder/browser callbacks) as a step
relation, to express properties of every state the engine can actually be in. -/

inductive EngOp where
  | reqPerm (ok : Bool)
  | start (gumOk : Bool)
  | stop
  | pause
  | resume
  | toggle (gumOk : Bool)
  | clear
  | data (size : Nat)
  | monitor (lvl : Nat)
  | tickDuration
deriving DecidableEq, Repr

def engStep : EngOp → EngineState → EngineState
  | EngOp.reqPerm ok, s => requestPermission ok s
  | EngOp.start g, s => startRecording g s
  | EngOp.stop, s => stopRecording s
  | EngOp.pause, s => pauseRecording s
  | EngOp.resume, s => resumeRecording s
  | EngOp.toggle g, s => toggleRecording g s
  | EngOp.clear, s => clearRecording s
  | EngOp.data n, s => dataTick n s
  | EngOp.monitor l, s => monitorTick l s
  | EngOp.tickDuration, s => durationTick s

inductive EngReachable : EngineState → Prop where
  | init : EngReachable initEngine
  | step {s : EngineState} (op : EngOp) : EngReachable s → EngReachable (engStep op s)

/-- In any non-recording state the engine is quiescent: audio context closed,
amplitude loop and duration timer stopped, level zero, not paused, and any
remaining recorder inactive. -/
def Quiescent (s : EngineState) : Prop :=
  s.isRecording = false →
    s.audioContextOpen = false ∧ s.animFrameActive = false ∧
    s.durationIntervalActive = false ∧ s.audioLevel = 0 ∧ s.isPaused = false ∧
    (∀ r, s.mediaRecorder = some r → r.recState = RecState.inactive)

theorem stopRecording_recorder_inactive (s : EngineState) (r : Recorder)
    (h : (stopRecording s).mediaRecorder = some r) : r.recState = RecState.inactive := by
  obtain ⟨ir, ip, er, lv, hp, du, ab, au, mr, ac, af, di, ch, dc, os⟩ := s
  rcases mr with _ | r0
  · simp [stopRecording] at h
  · by_cases hr0 : r0.recState = RecState.inactive
    · have h2 : r0 = r := by simpa [stopRecording, hr0] using h
      exact h2 ▸ hr0
    · rcases r0 with ⟨rs, sid⟩
      have h2 : ({ recState := RecState.inactive, streamId := sid } : Recorder) = r := by
        cases hc : ch.isEmpty <;> simpa [stopRecording, hr0, hc] using h
      rw [← h2]

theorem quiescent_requestPermission (ok : Bool) (s : EngineState)
    (h : Quiescent s) : Quiescent (requestPermission ok s) := by
  unfold requestPermission
  split <;> exact h

theorem quiescent_startRecording (g : Bool) (s : EngineState)
    (h : Quiescent s) : Quiescent (startRecording g s) := by
  simp only [startRecording, startRecordingReset]
  split
  · intro hr
    obtain ⟨h1, h2, h3, h4, _, h6⟩ := h hr
    exact ⟨h1, h2, h3, h4, rfl, h6⟩
  · split
    · intro hr
      exact Bool.noConfusion hr
    · intro hr
      obtain ⟨h1, h2, h3, h4, _, h6⟩ := h hr
      exact ⟨h1, h2, h3, h4, rfl, h6⟩

theorem quiescent_stopRecording (s : EngineState) : Quiescent (stopRecording s) := by
  intro _
  refine ⟨rfl, rfl, rfl, rfl, rfl, ?_⟩
  intro r hrec
  exact stopRecording_recorder_inactive s r hrec

theorem quiescent_pauseRecording (s : EngineState)
    (h : Quiescent s) : Quiescent (pauseRecording s) := by
  simp only [pauseRecording]
  rcases hm : s.mediaRecorder with _ | r0
  · exact h
  · by_cases hrec : r0.recState = RecState.recording
    · simp only [hrec, if_true]
      intro hr
      obtain ⟨_, _, _, _, _, h6⟩ := h hr
      rw [h6 r0 hm] at hrec
      exact RecState.noConfusion hrec
    · simp only [hrec, if_false]
      exact h

theorem quiescent_resumeRecording (s : EngineState)
    (h : Quiescent s) : Quiescent (resumeRecording s) := by
  simp only [resumeRecording]
  rcases hm : s.mediaRecorder with _ | r0
  · exact h
  · by_cases hrec : r0.recState = RecState.paused
    · simp only [hrec, if_true]
      intro hr
      obtain ⟨_, _, _, _, _, h6⟩ := h hr
      rw [h6 r0 hm] at hrec
      exact RecState.noConfusion hrec
    · simp only [hrec, if_false]
      exact h

theorem dataTick_cases (n : Nat) (s : EngineState) :
    dataTick n s = s ∨ dataTick n s = { s with chunks := s.chunks ++ [n] } := by
  unfold dataTick
  split
  · split
    · split
      · right; rfl
      · left; rfl
    · left; rfl
  · left; rfl

theorem quiescent_dataTick (n : Nat) (s : EngineState)
    (h : Quiescent s) : Quiescent (dataTick n s) := by
  rcases dataTick_cases n s with he | he <;> rw [he]
  · exact h
  · intro hr
    obtain ⟨h1, h2, h3, h4, h5, h6⟩ := h hr
    exact ⟨h1, h2, h3, h4, h5, h6⟩

theorem quiescent_monitorTick (l : Nat) (s : EngineState)
    (h : Quiescent s) : Quiescent (monitorTick l s) := by
  simp only [monitorTick]
  split
  · next hc =>
      intro hr
      obtain ⟨_, h2, _, _, _, _⟩ := h hr
      rw [h2] at hc
      exact Bool.noConfusion hc
  · exact h

theorem quiescent_durationTick (s : EngineState)
    (h : Quiescent s) : Quiescent (durationTick s) := by
  simp only [durationTick]
  split
  · intro hr
    obtain ⟨h1, h2, h3, h4, h5, h6⟩ := h hr
    exact ⟨h1, h2, h3, h4, h5, h6⟩
  · exact h

theorem quiescent_clearRecording (s : EngineState)
    (h : Quiescent s) : Quiescent (clearRecording s) := by
  intro hr
  obtain ⟨h1, h2, h3, h4, h5, h6⟩ := h hr
  exact ⟨h1, h2, h3, h4, h5, h6⟩

theorem quiescent_engStep (op : EngOp) (s : EngineState)
    (h : Quiescent s) : Quiescent (engStep op s) := by
  cases op with
  | reqPerm ok => exact quiescent_requestPermission ok s h
  | start g => exact quiescent_startRecording g s h
  | stop => exact quiescent_stopRecording s
  | pause => exact quiescent_pauseRecording s h
  | resume => exact quiescent_resumeRecording s h
  | toggle g =>
      show Quiescent (toggleRecording g s)
      unfold toggleRecording
      split
      · exact quiescent_stopRecording s
      · exact quiescent_startRecording g s h
  | clear => exact quiescent_clearRecording s h
  | data n => exact quiescent_dataTick n s h
  | monitor l => exact quiescent_monitorTick l s h
  | tickDuration => exact quiescent_durationTick s h

theorem engReachable_quiescent {s : EngineState} (h : EngReachable s) : Quiescent s := by
  induction h with
  | init =>
      intro _
      exact ⟨rfl, rfl, rfl, rfl, rfl, fun r hr2 => Option.noConfusion hr2⟩
  | step op _ ih => exact quiescent_engStep op _ ih

/-- C8: in every reachable engine state in which no recording is active,
`stopRecording` is an idempotent no-op: it raises no error and changes
nothing, so a second call from the same state changes nothing either. -/
theorem stopRecording_idempotent_noop (s : EngineState)
    (hre : EngReachable s) (h : s.isRecording = false) :
    stopRecording s = s ∧ stopRecording (stopRecording s) = s := by
  obtain ⟨h1, h2, h3, h4, h5, h6⟩ := engReachable_quiescent hre h
  have key : stopRecording s = s := by
    obtain ⟨ir, ip, er, lv, hp, du, ab, au, mr, ac, af, di, ch, dc, os⟩ := s
    dsimp only at h h1 h2 h3 h4 h5 h6
    subst h h1 h2 h3 h4 h5
    rcases mr with _ | r
    · rfl
    · have hin : r.recState = RecState.inactive := h6 r rfl
      simp [stopRecording, hin]
  exact ⟨key, by rw [key, key]⟩

/-- Witness for C8: the idle initial state is reachable and not recording, and
calling `stopRecording` twice in a row from it leaves the state identical. -/
theorem stopRecording_idempotent_noop_ex :
    stopRecording initEngine = initEngine ∧
    stopRecording (stopRecording initEngine) = initEngine :=
  stopRecording_idempotent_noop initEngine EngReachable.init rfl

/-! ## Connection Manager (GroupKioskWebSocketService)

Embeds the reconnect bookkeeping of the service: `reconnectAttempts` and
`reconnectDelay` fields, the `connect_error` and `connect` listeners, and the
options record handed to the transport (`io(wsUrl, {...})`). -/

inductive WSCallback where
  | connected
  | disconnected (reason : String)
  | errorCb (msg : String)
deriving DecidableEq, Repr

structure WSState where
  reconnectAttempts : Nat
  reconnectDelay : Nat
deriving DecidableEq, Repr

def maxReconnectAttempts : Nat := 5

def wsInit : WSState := { reconnectAttempts := 0, reconnectDelay := 1000 }

/-- The options object passed to `io(wsUrl, {...})` in `connect`. -/
structure IoOptions where
  reconnection : Bool
  reconnectionAttempts : Nat
  reconnectionDelay : Nat
  reconnectionDelayMax : Nat
deriving DecidableEq, Repr

def connectOptions (s : WSState) : IoOptions :=
  { reconnection := true
    reconnectionAttempts := maxReconnectAttempts
    reconnectionDelay := s.reconnectDelay
    reconnectionDelayMax := 10000 }

/-- The `connect` listener: zeroes the attempt counter, restores the 1s delay,
and invokes the connect callback. -/
def wsHandleConnect : WSState → WSState × List WSCallback := fun _ =>
  ({ reconnectAttempts := 0, reconnectDelay := 1000 }, [WSCallback.connected])

/-- The `connect_error` listener: bumps the attempt counter; at the cap it
fires the terminal error callback, otherwise it doubles the delay, capping at
10 seconds. -/
def wsHandleConnectError (s : WSState) : WSState × List WSCallback :=
  let attempts := s.reconnectAttempts + 1
  if maxReconnectAttempts ≤ attempts then
    ({ s with reconnectAttempts := attempts },
     [WSCallback.errorCb "Failed to connect after multiple attempts"])
  else
    ({ reconnectAttempts := attempts, reconnectDelay := min (s.reconnectDelay * 2) 10000 }, [])

/-- Runs `n` consecutive connection failures, collecting the backoff delay in
force before each failed attempt and all callbacks fired. -/
def runFailures : Nat → WSState → WSState × List Nat × List WSCallback
  | 0, s => (s, [], [])
  | n + 1, s =>
      let d := s.reconnectDelay
      let r1 := wsHandleConnectError s
      let r2 := runFailures n r1.1
      (r2.1, d :: r2.2.1, r1.2 ++ r2.2.2)

/-- C5: under 5 consecutive connection failures the delay sequence is
1000, 2000, 4000, 8000, 10000 (capped) ms; no error callback fires during the
first four failures and exactly one terminal error callback fires after the
fifth; the transport is configured with `reconnectionAttempts = 5`, so it
makes no sixth attempt; and a successful connect resets the attempt counter
and delay to their initial values 0 and 1000 ms from any state. -/
theorem reconnect_backoff_sequence :
    (runFailures 5 wsInit).2.1 = [1000, 2000, 4000, 8000, 10000] ∧
    (runFailures 4 wsInit).2.2 = [] ∧
    (runFailures 5 wsInit).2.2
      = [WSCallback.errorCb "Failed to connect after multiple attempts"] ∧
    (connectOptions wsInit).reconnectionAttempts = maxReconnectAttempts ∧
    maxReconnectAttempts = 5 ∧
    (∀ s : WSState, wsHandleConnect s
        = ({ reconnectAttempts := 0, reconnectDelay := 1000 }, [WSCallback.connected])) :=
  ⟨rfl, rfl, rfl, rfl, rfl, fun _ => rfl⟩

/-- The public method surface of `GroupKioskWebSocketService` (src/lib/websocket.ts):
invoking any name outside this list on the service throws a TypeError at
runtime.  Note `reportWaveListenerIssue` is NOT among them, although the
session-audio-control hook calls it. -/
def serviceMethods : List String :=
  ["connect", "joinSession", "leaveSession", "joinGroupSession", "leaveGroupSession",
   "updateGroupStatus", "markLeaderReady", "startAudioStream", "sendAudioChunk",
   "endAudioStream", "sendGroupAudio", "updateMuteStatus", "startSpeaking",
   "stopSpeaking", "disconnect", "isConnected"]

/-- Invoking a method on the service object: defined methods run, undefined
ones throw (`none`). -/
def wsServiceInvoke (method : String) : Option Unit :=
  if method ∈ serviceMethods then some () else none

/-! ## Auto-Capture Controller (useSessionAudioControl)

The hook's `controlState` becomes `ACState`; the asynchronous 3-2-1 countdown
of `startCountdownThenRecord` is modelled by a countdown counter advanced by
explicit one-second timer events, exactly mirroring the `setTimeout` loop
(cancelling the countdown clears the pending timer, so a cancelled cycle
receives no further ticks; a stale tick against a cleared countdown is a
no-op).  Events carry the values the handler reads at invocation time:
session status, `group?.isReady`, `hasPermission`, and `group?.id`. -/

inductive WsCmd where
  | startAudioStream (groupId : String)
  | endAudioStream (groupId : String)
deriving DecidableEq, Repr

structure ACState where
  isAutoStarting : Bool
  countdown : Option Nat
  isAutoRecording : Bool
  autoStartError : Option String
deriving DecidableEq, Repr

def initAC : ACState :=
  { isAutoStarting := false, countdown := none, isAutoRecording := false, autoStartError := none }

inductive ACEvent where
  | statusPush (status : String) (groupReady : Bool) (hasPermission : Bool)
      (groupId : Option String)
  | countdownTick (hasPermission : Bool) (groupId : Option String)
deriving DecidableEq, Repr

/-- One controller step: `handleSessionStatusChange` for a status push, and
one `setTimeout` resolution of `startCountdownThenRecord` for a tick (the
final tick re-validates permission, then emits `start-audio-stream` and starts
the recorder). -/
def acStep (ev : ACEvent) (c : ACState) : ACState × List WsCmd :=
  match ev with
  | ACEvent.statusPush status ready perm gid =>
      if status = "active" ∧ ready = true ∧ perm = true then
        if c.isAutoStarting = false ∧ c.isAutoRecording = false then
          ({ c with isAutoStarting := true, autoStartError := none, countdown := some 3 }, [])
        else (c, [])
      else if status = "ended" ∨ status = "paused" then
        let c1 : ACState := { c with countdown := none, isAutoStarting := false }
        if c.isAutoRecording = true then
          ({ c1 with isAutoRecording := false },
           match gid with
           | some g => [WsCmd.endAudioStream g]
           | none => [])
        else (c1, [])
      else (c, [])
  | ACEvent.countdownTick perm gid =>
      match c.countdown with
      | some (n + 2) => ({ c with countdown := some (n + 1) }, [])
      | some 1 =>
          let c1 : ACState := { c with countdown := none }
          if perm = false then
            ({ c1 with autoStartError := some "Microphone permission not available",
                       isAutoStarting := false }, [])
          else
            match gid with
            | some g =>
                ({ c1 with isAutoRecording := true, isAutoStarting := false },
                 [WsCmd.startAudioStream g])
            | none => (c1, [])
      | some 0 => (c, [])
      | none => (c, [])

def acRun (evs : List ACEvent) (c : ACState) : ACState × List WsCmd :=
  match evs with
  | [] => (c, [])
  | ev :: rest =>
      let r1 := acStep ev c
      let r2 := acRun rest r1.1
      (r2.1, r1.2 ++ r2.2)

def isStartCmd : WsCmd → Bool
  | WsCmd.startAudioStream _ => true
  | WsCmd.endAudioStream _ => false

def countStarts (l : List WsCmd) : Nat := (l.filter isStartCmd).length

/-- 1 while a countdown is pending, else 0. -/
def countdownLive (c : ACState) : Nat := if c.countdown.isSome then 1 else 0

/-- Number of countdown cycles begun along an event sequence: steps whose
pre-state had no countdown and whose post-state has one. -/
def cycleEntries (evs : List ACEvent) (c : ACState) : Nat :=
  match evs with
  | [] => 0
  | ev :: rest =>
      (if c.countdown.isNone ∧ (acStep ev c).1.countdown.isSome then 1 else 0)
      + cycleEntries rest (acStep ev c).1

theorem countStarts_append (a b : List WsCmd) :
    countStarts (a ++ b) = countStarts a + countStarts b := by
  simp [countStarts, List.filter_append]

theorem acStep_starts_le (ev : ACEvent) (c : ACState) :
    countStarts (acStep ev c).2 + countdownLive (acStep ev c).1
      ≤ countdownLive c
        + (if c.countdown.isNone ∧ (acStep ev c).1.countdown.isSome then 1 else 0) := by
  cases ev with
  | statusPush status ready perm gid =>
      simp only [acStep]
      split
      · split
        · cases hc : c.countdown <;>
            simp [countStarts, countdownLive, hc]
        · simp [countStarts, countdownLive]
      · split
        · split
          · cases gid <;>
              simp [countStarts, countdownLive, isStartCmd]
          · simp [countStarts, countdownLive]
        · simp [countStarts, countdownLive]
  | countdownTick perm gid =>
      simp only [acStep]
      rcases hc : c.countdown with _ | n
      · simp [countStarts, countdownLive, hc]
      · match n with
        | 0 => simp [countStarts, countdownLive, hc]
        | 1 =>
            cases perm <;> cases gid <;>
              simp [countStarts, countdownLive, isStartCmd, hc]
        | m + 2 => simp [countStarts, countdownLive, hc]

theorem acRun_starts_le (evs : List ACEvent) (c : ACState) :
    countStarts (acRun evs c).2 ≤ countdownLive c + cycleEntries evs c := by
  induction evs generalizing c with
  | nil => simp [acRun, countStarts, cycleEntries]
  | cons ev rest ih =>
      simp only [acRun, cycleEntries]
      rw [countStarts_append]
      have h1 := acStep_starts_le ev c
      have h2 := ih (acStep ev c).1
      omega

/-- C1: (i) along every sequence of events from the idle controller, the
number of start-audio-stream emissions is at most the number of countdown
cycles begun (at most one start per countdown cycle); (ii) a status push of
active while the controller is already counting down or recording changes
nothing and emits nothing; (iii) a push of paused or ended arriving
mid-countdown while not recording cancels the countdown, emits zero commands
(in particular zero start-audio-stream), and returns the controller to idle
(no countdown, not auto-starting). -/
theorem autoCapture_one_start_per_cycle :
    (∀ evs : List ACEvent, countStarts (acRun evs initAC).2 ≤ cycleEntries evs initAC) ∧
    (∀ (c : ACState) (ready perm : Bool) (gid : Option String),
      c.isAutoStarting = true ∨ c.isAutoRecording = true →
      acStep (ACEvent.statusPush "active" ready perm gid) c = (c, [])) ∧
    (∀ (c : ACState) (n : Nat) (status : String) (ready perm : Bool) (gid : Option String),
      status = "paused" ∨ status = "ended" →
      c.countdown = some n →
      c.isAutoRecording = false →
      acStep (ACEvent.statusPush status ready perm gid) c
        = ({ c with countdown := none, isAutoStarting := false }, [])) := by
  refine ⟨?_, ?_, ?_⟩
  · intro evs
    have h := acRun_starts_le evs initAC
    simpa [countdownLive, initAC] using h
  · intro c ready perm gid h
    simp only [acStep]
    rcases h with h | h <;>
      cases ready <;> cases perm <;> simp [h]
  · intro c n status ready perm gid hst hcd hrec
    rcases hst with hst | hst <;> subst hst <;> simp [acStep, hrec]

/-- Witness for C1: an active push during a countdown (step 2 of 3) changes
nothing; a paused push at the same point cancels to idle with zero emissions;
and on the canonical full run (active push, three ticks) the start count, 1,
is bounded by the single cycle entry. -/
theorem autoCapture_one_start_per_cycle_ex :
    acStep (ACEvent.statusPush "active" true true (some "g1"))
        { isAutoStarting := true, countdown := some 2,
          isAutoRecording := false, autoStartError := none }
      = ({ isAutoStarting := true, countdown := some 2,
           isAutoRecording := false, autoStartError := none }, []) ∧
    acStep (ACEvent.statusPush "paused" true true (some "g1"))
        { isAutoStarting := true, countdown := some 2,
          isAutoRecording := false, autoStartError := none }
      = ({ isAutoStarting := false, countdown := none,
           isAutoRecording := false, autoStartError := none }, []) ∧
    countStarts (acRun
        [ACEvent.statusPush "active" true true (some "g1"),
         ACEvent.countdownTick true (some "g1"),
         ACEvent.countdownTick true (some "g1"),
         ACEvent.countdownTick true (some "g1")] initAC).2
      ≤ cycleEntries
        [ACEvent.statusPush "active" true true (some "g1"),
         ACEvent.countdownTick true (some "g1"),
         ACEvent.countdownTick true (some "g1"),
         ACEvent.countdownTick true (some "g1")] initAC :=
  ⟨autoCapture_one_start_per_cycle.2.1 _ true true (some "g1") (Or.inl rfl),
   autoCapture_one_start_per_cycle.2.2 _ 2 "paused" true true (some "g1")
     (Or.inl rfl) rfl rfl,
   autoCapture_one_start_per_cycle.1 _⟩

/-! ## Permission revocation while recording (handlePermissionChange)

The permission watcher's change handler, embedded statement by statement:
when the permission state is denied and auto-recording is on, it (1) sets the
error message and clears the recording flag, (2) if both `group?.id` and
`session?.id` are present, calls `wsService.reportWaveListenerIssue` — a
method that does not exist on the service, so the call throws and the handler
aborts — then (3) force-stops the recorder and (4) emits `end-audio-stream`.
The result records the controller state, the engine state, the commands that
were actually emitted, and whether the handler threw. -/

structure PermChangeResult where
  ctrl : ACState
  engine : EngineState
  emitted : List WsCmd
  threw : Bool
deriving DecidableEq, Repr

def handlePermissionChange (permDenied : Bool) (groupId sessionId : Option String)
    (c : ACState) (e : EngineState) : PermChangeResult :=
  if permDenied = true ∧ c.isAutoRecording = true then
    let c1 : ACState :=
      { c with
        autoStartError :=
          some "Microphone permission was revoked. Please re-grant permission to continue.",
        isAutoRecording := false }
    let report : Option Unit :=
      match groupId, sessionId with
      | some _, some _ => wsServiceInvoke "reportWaveListenerIssue"
      | _, _ => some ()
    match report with
    | none => { ctrl := c1, engine := e, emitted := [], threw := true }
    | some _ =>
        { ctrl := c1, engine := stopRecording e,
          emitted :=
            match groupId with
            | some g => [WsCmd.endAudioStream g]
            | none => [],
          threw := false }
  else { ctrl := c, engine := e, emitted := [], threw := false }

/-- The engine while a recording span is live: permission granted, one start. -/
def recordingEngine : EngineState := startRecording true (requestPermission true initEngine)

/-- The controller while auto-recording. -/
def recordingAC : ACState :=
  { isAutoStarting := false, countdown := none, isAutoRecording := true, autoStartError := none }

/-- C2 (code evaluation at the failing input): `reportWaveListenerIssue` is
not a method of the connection service, so when a permission-revoked signal
arrives while recording with a group and session present, the handler throws
after the error transition: the device stream is never released (the open
stream survives untouched) and zero end-audio-stream commands are emitted —
the issue report does block the local stop sequence.  Had the session id been
absent the report call would be skipped and the stop sequence would complete
(stream released, exactly one end-audio-stream), which is the behaviour the
claim describes. -/
theorem permission_revoked_report_blocks_stop :
    ("reportWaveListenerIssue" ∉ serviceMethods) ∧
    (handlePermissionChange true (some "g1") (some "s1") recordingAC recordingEngine).threw
      = true ∧
    (handlePermissionChange true (some "g1") (some "s1") recordingAC recordingEngine).ctrl
      = { isAutoStarting := false, countdown := none, isAutoRecording := false,
          autoStartError :=
            some "Microphone permission was revoked. Please re-grant permission to continue." } ∧
    (handlePermissionChange true (some "g1") (some "s1") recordingAC recordingEngine).emitted
      = [] ∧
    (handlePermissionChange true (some "g1") (some "s1") recordingAC recordingEngine).engine
      = recordingEngine ∧
    recordingEngine.openStreams = [1] ∧
    recordingEngine.isRecording = true ∧
    (handlePermissionChange true (some "g1") none recordingAC recordingEngine).emitted
      = [WsCmd.endAudioStream "g1"] ∧
    (handlePermissionChange true (some "g1") none recordingAC recordingEngine).engine.openStreams
      = [] := by
  refine ⟨by decide, rfl, rfl, rfl, rfl, rfl, rfl, rfl, ?_⟩
  decide

end ClassWaves
